import Mathlib

/-!
Shallow embedding of the `Project1_LinReg` repository: the dynamic container
`yrgo::container::Vector<T>` from `src/Project1_LinReg_/vector.hpp`, and the
linear-regression model `yrgo::LinReg` (its header `lin_reg.hpp` is not part
of the sources, so it is modelled from the specification).

Machine memory is modelled functionally: the heap block owned by a container
is a `List T` (the block's live elements, so `size_` is the list's length,
matching the invariant that the element count always equals the number of
live elements in the block and that the count-0 state is the empty block).
Whether a given heap (re)allocation succeeds is an input to each operation
(`allocOk : Bool`): the value `false` plays the role of `malloc`/`realloc`
returning a null pointer.  Real arithmetic (`double` in the source) is
modelled by `ℚ`.
-/

namespace Spec2Proof

namespace detail

/-- Modelled from the spec: `container.hpp` (the `detail` allocation helpers
used by `vector.hpp`) is not under `src/`.  Per the spec's resize contract,
a successful reallocation yields a block of exactly `new_size` elements that
preserves the values at the indices that remain valid (`0..min(old,new)`),
with any further positions default-valued (the spec leaves the tail
unspecified/default); on allocation failure (here: `allocOk = false`) the
call returns null (`none`) and the original block is untouched. -/
def Resize (T : Type) [Inhabited T] (block : List T) (new_size : Nat)
    (allocOk : Bool) : Option (List T) :=
  if allocOk then
    some ((block ++ List.replicate (new_size - block.length) default).take new_size)
  else
    none

/-- Modelled from the spec: `container.hpp` is not under `src/`.  `Delete`
releases the block unconditionally; afterwards the pointer is in the
null/empty state. -/
def Delete (T : Type) (_block : List T) : List T := []

end detail

/-- The dynamic container `yrgo::container::Vector<T>` of `vector.hpp`:
a heap block (`data_`, modelled as the list of its live elements) whose
length is the element count `size_`. -/
structure Vector (T : Type) where
  data_ : List T
deriving DecidableEq, Repr

namespace Vector

variable {T : Type} [Inhabited T]

/-- `Size()` — the number of elements the container holds (`size_`). -/
def Size (v : Vector T) : Nat := v.data_.length

/-- `Empty()` — `size_ == 0 ? true : false`. -/
def Empty (v : Vector T) : Bool := v.Size == 0

/-- The default constructor `Vector(void)` — creates an empty vector. -/
def init : Vector T := ⟨[]⟩

/-- `Clear()` — deallocates via `detail::Delete` and resets `size_` to 0. -/
def Clear (v : Vector T) : Vector T := ⟨detail.Delete T v.data_⟩

/-- `Resize(new_size)` — calls `detail::Resize`; on null result returns
`false` leaving the members unchanged, otherwise installs the new block,
sets `size_ = new_size` and returns `true`. -/
def Resize (v : Vector T) (new_size : Nat) (allocOk : Bool) : Bool × Vector T :=
  match detail.Resize T v.data_ new_size allocOk with
  | none => (false, v)
  | some copy => (true, ⟨copy⟩)

/-- `PushBack(value)` — grows by one via `Resize(size_ + 1)` and writes
`value` at index `size_ - 1` (the new last index); reports `false` if the
resize failed. -/
def PushBack (v : Vector T) (value : T) (allocOk : Bool) : Bool × Vector T :=
  match v.Resize (v.Size + 1) allocOk with
  | (true, w) => (true, ⟨w.data_.set (w.Size - 1) value⟩)
  | (false, w) => (false, w)

/-- `PopBack()` — if `size_ <= 1`, clears and returns `true`; otherwise
returns `Resize(size_ - 1)`. -/
def PopBack (v : Vector T) (allocOk : Bool) : Bool × Vector T :=
  if v.Size ≤ 1 then (true, v.Clear)
  else v.Resize (v.Size - 1) allocOk

/-- The loop body shared by both `Assign` overloads: starting at index
`offset`, write the values in order into the block (`data_[offset + i] =
values[i]`) for as long as `i` runs over the values and `offset + i` stays
below `size_`; the block's size never changes. -/
def assignFrom (data : List T) (values : List T) (offset : Nat) : List T :=
  match values with
  | [] => data
  | x :: rest =>
    if offset < data.length then assignFrom (data.set offset x) rest (offset + 1)
    else data

/-- `Assign(source, offset)` — assigns the source vector's values from
index `offset` on, without changing the vector's size. -/
def Assign (v : Vector T) (source : Vector T) (offset : Nat) : Vector T :=
  ⟨assignFrom v.data_ source.data_ offset⟩

/-- `Copy(source)` — resizes to the source's size and assigns its values;
on resize failure returns `false`. -/
def Copy (v : Vector T) (source : Vector T) (allocOk : Bool) : Bool × Vector T :=
  match v.Resize source.Size allocOk with
  | (true, w) => (true, w.Assign source 0)
  | (false, w) => (false, w)

/-- `AddValues(source)` — remembers `offset = size_`, grows by the source's
size in a single `Resize(size_ + source.size_)`, then assigns the source's
values starting at `offset`; reports `false` if the resize failed. -/
def AddValues (v : Vector T) (source : Vector T) (allocOk : Bool) : Bool × Vector T :=
  let offset := v.Size
  match v.Resize (v.Size + source.Size) allocOk with
  | (true, w) => (true, w.Assign source offset)
  | (false, w) => (false, w)

/-- The size constructor `Vector(const size_t size)` — `Resize(size)` on an
empty vector (on failure the vector stays empty). -/
def ofSize (T : Type) [Inhabited T] (size : Nat) (allocOk : Bool) : Vector T :=
  ((init : Vector T).Resize size allocOk).2

/-- The literal constructor `Vector(const T (&values)[size])` — resizes to
the literal's length and, if that succeeded, assigns the values in index
order. -/
def ofValues (values : List T) (allocOk : Bool) : Vector T :=
  match (init : Vector T).Resize values.length allocOk with
  | (true, w) => w.Assign ⟨values⟩ 0
  | (false, w) => w

/-- The copy constructor `Vector(const Vector& source)` — `Copy(source)` on
an empty vector. -/
def copyCtor (source : Vector T) (allocOk : Bool) : Vector T :=
  ((init : Vector T).Copy source allocOk).2

/-- The move constructor `Vector(Vector&& source)` — transfers the pointer
and length to the new vector and nulls the source.  The first component is
the constructed vector, the second is the source after the move. -/
def moveCtor (source : Vector T) : Vector T × Vector T :=
  (⟨source.data_⟩, ⟨[]⟩)

/-- The copy-assignment operator `operator=(const Vector& source)` (for a
source distinct from the destination) — `Clear()` then `Copy(source)`. -/
def assignOp (v : Vector T) (source : Vector T) (allocOk : Bool) : Vector T :=
  ((v.Clear).Copy source allocOk).2

/-- Self-assignment `v = v`: in `operator=` the source reference aliases
the destination, so after `Clear()` the subsequent `Copy` reads the
already-cleared object. -/
def selfAssignOp (v : Vector T) (allocOk : Bool) : Vector T :=
  ((v.Clear).Copy v.Clear allocOk).2

/-- The append operator `operator+=(const Vector& source)` — `AddValues`. -/
def appendOp (v : Vector T) (source : Vector T) (allocOk : Bool) : Vector T :=
  (v.AddValues source allocOk).2

/-- A sequence of `PushBack` calls, one per listed value, every allocation
succeeding. -/
def pushAll (v : Vector T) (values : List T) : Vector T :=
  match values with
  | [] => v
  | x :: rest => ((v.PushBack x true).2).pushAll rest

/-- A sequence of `n` `PopBack` calls, every allocation succeeding. -/
def popN (v : Vector T) (n : Nat) : Vector T :=
  match n with
  | 0 => v
  | k + 1 => ((v.PopBack true).2).popN k

end Vector

namespace yrgo

/-- Modelled from the spec: `lin_reg.hpp` (the `yrgo::LinReg` class) is not
under `src/`.  The model owns copies of the inputs and outputs containers
(held here as the lists of their elements) and two scalar parameters, bias
and weight, both initialized to zero; `double` is modelled by `ℚ`. -/
structure LinReg where
  inputs : List ℚ
  outputs : List ℚ
  bias : ℚ
  weight : ℚ
deriving DecidableEq

/-- Modelled from the spec: the learning rate is a fixed constant of 1 %. -/
def learning_rate : ℚ := 1 / 100

/-- Modelled from the spec: `Predict(x)` returns `bias + weight * x`. -/
def LinReg.Predict (m : LinReg) (x : ℚ) : ℚ := m.bias + m.weight * x

/-- Modelled from the spec: one epoch of batch gradient descent over the
full training set.  Each pair contributes the prediction error
`ŷ_i - y_i = Predict(x_i) - y_i`; `grad_bias` is the mean of the errors and
`grad_weight` the mean of `(ŷ_i - y_i) * x_i`, and both parameters move
against their gradient scaled by the learning rate. -/
def LinReg.TrainStep (m : LinReg) : LinReg :=
  let n : ℚ := (m.inputs.length : ℚ)
  let grad_bias : ℚ := (List.zipWith (fun x y => m.Predict x - y) m.inputs m.outputs).sum / n
  let grad_weight : ℚ := (List.zipWith (fun x y => (m.Predict x - y) * x) m.inputs m.outputs).sum / n
  ⟨m.inputs, m.outputs, m.bias - learning_rate * grad_bias, m.weight - learning_rate * grad_weight⟩

/-- Modelled from the spec: `Train(epochs)` runs `epochs` iterations of
batch gradient descent. -/
def LinReg.Train (m : LinReg) (epochs : Nat) : LinReg :=
  match epochs with
  | 0 => m
  | e + 1 => m.TrainStep.Train e

/-- Modelled from the spec: constructing a model directly from training
data (`LinReg model{inputs, outputs}` in the tests) stores the data and
zero-initializes both parameters. -/
def LinReg.ofData (inputs outputs : List ℚ) : LinReg := ⟨inputs, outputs, 0, 0⟩

/-- The third training scenario (`lin_reg_test.cpp`, Test3, also the data
in `main.cpp`): inputs `{0,1,2,3,4}`, outputs `{-50,50,150,250,350}`, both
loaded through the container's literal constructor. -/
def c3model : LinReg :=
  LinReg.ofData ((Vector.ofValues [0, 1, 2, 3, 4] true).data_)
    ((Vector.ofValues [-50, 50, 150, 250, 350] true).data_)


/-- The exact parameters of the spec-modelled batch trainer on the third
scenario after 100 epochs. -/
def c3state100 : LinReg :=
  ⟨[0, 1, 2, 3, 4], [-50, 50, 150, 250, 350],
    (12318829345646479968959464206951012054866039357641210504770081561394726655054958727184863263328360360960827024769997563184991412965819305389409599121853105025153315510593379593917272005574203024144001 : ℚ) / 2000000000000000000000000000000000000000000000000000000000000000000000000000000000000000000000000000000000000000000000000000000000000000000000000000000000000000000000000000000000000000000000000000000,
    (80220231246298854194768765524409091130163264845673863030482894581571997997183177303796331332895004912090295965355686143657613812773314614717797666556135425308738449423355549231296365265815811496312999 : ℚ) / 1000000000000000000000000000000000000000000000000000000000000000000000000000000000000000000000000000000000000000000000000000000000000000000000000000000000000000000000000000000000000000000000000000000⟩

/-- The exact parameters of the spec-modelled batch trainer on the third
scenario after 200 epochs. -/
def c3state200 : LinReg :=
  ⟨[0, 1, 2, 3, 4], [-50, 50, 150, 250, 350],
    (-1666219442043408094454479942591457315872163897288048242313485112188789050396365760462981572069218193215796374041025902542946872589269763242405521424526552097284991992227661291151603592204946709507567225373331612448923475390326951925974898948174189504625571507157528827516128422141240299573102099220060192660954044213435067506347680927189247143094060174416890542621671114061705291010525640405640211999 : ℚ) / 200000000000000000000000000000000000000000000000000000000000000000000000000000000000000000000000000000000000000000000000000000000000000000000000000000000000000000000000000000000000000000000000000000000000000000000000000000000000000000000000000000000000000000000000000000000000000000000000000000000000000000000000000000000000000000000000000000000000000000000000000000000000000000000000000000000000000,
    (8538326031145141578687054854842973813559005492120703975894653052231416328337258163813661457291516893686382188329332208083537490979945388146654369700543088510573445459304892161686168077642678379333150845900419696016827485628148357868058949855363947890338800554990669340522993877159266280843726281946300180492307481111616043861176727699153026844297743119953608228040005926386750955341412660092917500999 : ℚ) / 100000000000000000000000000000000000000000000000000000000000000000000000000000000000000000000000000000000000000000000000000000000000000000000000000000000000000000000000000000000000000000000000000000000000000000000000000000000000000000000000000000000000000000000000000000000000000000000000000000000000000000000000000000000000000000000000000000000000000000000000000000000000000000000000000000000000000⟩

/-- The exact parameters of the spec-modelled batch trainer on the third
scenario after 300 epochs. -/
def c3state300 : LinReg :=
  ⟨[0, 1, 2, 3, 4], [-50, 50, 150, 250, 350],
    (-381928667728403095794797378418833189623965105095512657146565864623009540857688486454122807929541226665592832172130586725034266653451664475822548195035219397768006534849968871624840347421420946083514030276204662822222313727642474451868164405365945008649546964264542817254721100440336135025789228290734809470309284486552602743586268145304340102235680324104937826732947591275908593400910947545068599336178745361349188838882076034862010314130318767149868052628083700683293808978432612100287180073739151911751572118058418368288377632575360296066313247072085763993955173550187663736718531611540481680567999 : ℚ) / 20000000000000000000000000000000000000000000000000000000000000000000000000000000000000000000000000000000000000000000000000000000000000000000000000000000000000000000000000000000000000000000000000000000000000000000000000000000000000000000000000000000000000000000000000000000000000000000000000000000000000000000000000000000000000000000000000000000000000000000000000000000000000000000000000000000000000000000000000000000000000000000000000000000000000000000000000000000000000000000000000000000000000000000000000000000000000000000000000000000000000000000000000000000000000000000000000000000000000000000000,
    (891596140897347318096998082156122572090734820490685985172549905175112833843194198965436903687713863850786133734282141141935857633082052030574241444512248346815244277983732747535966356059096753002137807331579272843599302426121135076733838390950416212719786721912674183511405843860031856982624392596360534770116803133576687441321489003679285712054672724600599175293469477990163355509791106597445040026160298893906447709531354298198001860866592428912795219461709029188911622368463303720239457196160439959038521055932006229625433980370434851736046399378815012977544272481449369519767042452335980466688999 : ℚ) / 10000000000000000000000000000000000000000000000000000000000000000000000000000000000000000000000000000000000000000000000000000000000000000000000000000000000000000000000000000000000000000000000000000000000000000000000000000000000000000000000000000000000000000000000000000000000000000000000000000000000000000000000000000000000000000000000000000000000000000000000000000000000000000000000000000000000000000000000000000000000000000000000000000000000000000000000000000000000000000000000000000000000000000000000000000000000000000000000000000000000000000000000000000000000000000000000000000000000000000000000⟩

/-- The exact parameters of the spec-modelled batch trainer on the third
scenario after 400 epochs. -/
def c3state400 : LinReg :=
  ⟨[0, 1, 2, 3, 4], [-50, 50, 150, 250, 350],
    (-54161026097812446511069041374301910312597141402416945687524594134211119972102253319323762210305881550027310076962555252307015195857399304206173424354220614057556968291800910901230659547346530899449247770911626483061810918229010407812208828710952729426075978674132760863056574545214234752493514220084738880182713751534833398596973960988365150294585951190181072781863555067178109147497188935867126780370907077056050850331476328209214972065254097044032806764996845099265050642632856191109511034391308236202727740381986392911429265970425733903065837008452149986187188419729924977060907289559073178477828684278684381892233805525649516543131964167806728514617970355903263402966024189465919042199158312615854387036016170812624639720699706627669200956867649171142039285937339130540390855192236677001096923999 : ℚ) / 2000000000000000000000000000000000000000000000000000000000000000000000000000000000000000000000000000000000000000000000000000000000000000000000000000000000000000000000000000000000000000000000000000000000000000000000000000000000000000000000000000000000000000000000000000000000000000000000000000000000000000000000000000000000000000000000000000000000000000000000000000000000000000000000000000000000000000000000000000000000000000000000000000000000000000000000000000000000000000000000000000000000000000000000000000000000000000000000000000000000000000000000000000000000000000000000000000000000000000000000000000000000000000000000000000000000000000000000000000000000000000000000000000000000000000000000000000000000000000000000000000000000000000000000000000000000000000000000000000000000000000000000000000000,
    (91960278087275153671796355350877627992290396953896591077339610571103890636100997100143508392075011914647315948964445515471608352232332750278712478635767376903755802544576868092782450055778532753470482033571710472894231808852651160041784767458253958909250852712997627284217168135842611287505507273941005426387416638186972377386130359211444399162283633047940011104434476083451084775902637277929260329231294848262720636892374920585384742087471372467850195189206469146238551597942582632543489885019867645973755893343155827989618852453035563137038232077787314205367652480415731763853261356645557618923852210344630199536884585506102103892654463882840368695018297192735752177537529719483156350809369044531027972229726556305030012113311000223991595010999214437177757430328116721652267018177211581202143876999 : ℚ) / 1000000000000000000000000000000000000000000000000000000000000000000000000000000000000000000000000000000000000000000000000000000000000000000000000000000000000000000000000000000000000000000000000000000000000000000000000000000000000000000000000000000000000000000000000000000000000000000000000000000000000000000000000000000000000000000000000000000000000000000000000000000000000000000000000000000000000000000000000000000000000000000000000000000000000000000000000000000000000000000000000000000000000000000000000000000000000000000000000000000000000000000000000000000000000000000000000000000000000000000000000000000000000000000000000000000000000000000000000000000000000000000000000000000000000000000000000000000000000000000000000000000000000000000000000000000000000000000000000000000000000000000000000000000⟩

/-- The exact parameters of the spec-modelled batch trainer on the third
scenario after 500 epochs. -/
def c3state500 : LinReg :=
  ⟨[0, 1, 2, 3, 4], [-50, 50, 150, 250, 350],
    (-6600373747992203316943507330142138152983057257720354751387093107847446315042625154975388852556144528392198793131878946048145171051725321350056335884047249344868189307545569986761860507363590007208858908847132877996500830059009202256670820103831919056199265277216488935350250824086365664393814246339927987325298687418751040922053615597522220592427702145902772123258771376258135098846444754224410687143118136989481498966656665723060170556431512919409556690770148614429937378307928806226142577466276728474653747515976234034294422469746536629836863061756688786332694419738989626802691604346818319931486974005231506727217034352184349546383045060343566606247917616889500547527636280142778674921816177077872290430811188916196083532401550013882290943850815596662102786690742019827698085533782829646888974273235119716699835912044688466198303763542109791052984057324300696120368238714609456988497071398179066358046258305586588227109981551183060422603209271779682541221248559064323586049141779342976939889279999 : ℚ) / 200000000000000000000000000000000000000000000000000000000000000000000000000000000000000000000000000000000000000000000000000000000000000000000000000000000000000000000000000000000000000000000000000000000000000000000000000000000000000000000000000000000000000000000000000000000000000000000000000000000000000000000000000000000000000000000000000000000000000000000000000000000000000000000000000000000000000000000000000000000000000000000000000000000000000000000000000000000000000000000000000000000000000000000000000000000000000000000000000000000000000000000000000000000000000000000000000000000000000000000000000000000000000000000000000000000000000000000000000000000000000000000000000000000000000000000000000000000000000000000000000000000000000000000000000000000000000000000000000000000000000000000000000000000000000000000000000000000000000000000000000000000000000000000000000000000000000000000000000000000000000000000000000000000000000000000000000000000000000000000000000000000000000000000000000000000000000,
    (9403737750949351214747532374455595721508682209019194300305475965881171435485820009148427122503004068783405659161620751272439694749995393114260694856320029103827974821626581582193875360856584980263166773494202829859663658093648940068116791335487683992789662982938423017928825643818908795035339641758065005530387937930239568895886039812387486159246981162172165849461354979111645786409525853037423762705754162925077223914149232010686486543097927713593363712378065125401317162832438709831841546944105589655940732271400009129529769171081569354675721436219698252373344970070552970681537332905229075106123976308240045899506807066838898996086601831188260283063211301987555091330689182746646363457517371424273355314146787688040559066379024840462967973990836099332370822887920269643364691815769520514484147400040416184996269079327293323958491543281048662778085881428202700064103473361649397397959861210511370135948175051018563810296822295535729137438704384150760466143669854334397414422076424722061485949064999 : ℚ) / 100000000000000000000000000000000000000000000000000000000000000000000000000000000000000000000000000000000000000000000000000000000000000000000000000000000000000000000000000000000000000000000000000000000000000000000000000000000000000000000000000000000000000000000000000000000000000000000000000000000000000000000000000000000000000000000000000000000000000000000000000000000000000000000000000000000000000000000000000000000000000000000000000000000000000000000000000000000000000000000000000000000000000000000000000000000000000000000000000000000000000000000000000000000000000000000000000000000000000000000000000000000000000000000000000000000000000000000000000000000000000000000000000000000000000000000000000000000000000000000000000000000000000000000000000000000000000000000000000000000000000000000000000000000000000000000000000000000000000000000000000000000000000000000000000000000000000000000000000000000000000000000000000000000000000000000000000000000000000000000000000000000000000000000000000000000000000⟩

/-- The exact parameters of the spec-modelled batch trainer on the third
scenario after 600 epochs. -/
def c3state600 : LinReg :=
  ⟨[0, 1, 2, 3, 4], [-50, 50, 150, 250, 350],
    (-747868294827221494600847100462276197581000793638403648534620560393484399380524806086663066701949595492529011491806309999373730277697342160177524509656407922391514544353006483846611161739729046928678630470399975402541623518600885557220598396122150970624037919451435431783808061745766122927266047620944567560946138993953582235450481274224884712360909060719490980918135593989415954098214560667733367779224245270085825324325519384460616086887556614663907914366041063088560501711161926012764426774420002407892924025710603932981595218879868080776765660648521777251006537952385443506304698891486745895165480285396454436328872600673513911691806611842020906185855535013300834764959650137454079425848175093962381107172197882403070966795830632850810134199708940963629035505154371323397262757380290111377193450719451997619256562379560006077479732166625800463069080742976316732619645818946068547566049277276293785783101436938910614639805737778412870727020578861128625554233503485193876202162356594051445754755038113452549548099699433759467998737945312616796327499052623953805992887408295067578948760788679734873532853686914824415808360341584393713638545755798102136110149806119928697023447330937605743274057635999 : ℚ) / 20000000000000000000000000000000000000000000000000000000000000000000000000000000000000000000000000000000000000000000000000000000000000000000000000000000000000000000000000000000000000000000000000000000000000000000000000000000000000000000000000000000000000000000000000000000000000000000000000000000000000000000000000000000000000000000000000000000000000000000000000000000000000000000000000000000000000000000000000000000000000000000000000000000000000000000000000000000000000000000000000000000000000000000000000000000000000000000000000000000000000000000000000000000000000000000000000000000000000000000000000000000000000000000000000000000000000000000000000000000000000000000000000000000000000000000000000000000000000000000000000000000000000000000000000000000000000000000000000000000000000000000000000000000000000000000000000000000000000000000000000000000000000000000000000000000000000000000000000000000000000000000000000000000000000000000000000000000000000000000000000000000000000000000000000000000000000000000000000000000000000000000000000000000000000000000000000000000000000000000000000000000000000000000000000000000000000000000000000000000000000000000000000000000000000000000000000000000000000000000000,
    (955778486680850165436246696206453147073743600149025790079293592438616370205087600963382235129173133341978062824851709624986421543203598994588406747421163446114955657083213452236849378427333434807592311571722256669972481007750099117031550157986092016873040269140343792833285392136902057514366468279524639209707773619073204783543016567745304366971333907904470823971021061624386699905933975501565647511140358766596405111782993803026258177788028337214564902593868047106457034386799538757415537149870061718339519088633755038994940858782175748050298636663075989249683158411516707261496368507727570550896097421204738797578002224706384368306680202129508373189336096264382970823986276719824662037693339691228525182839230658706095496215405401744841419828865555812820399709878375091027737992862123438998830325062057737520107718531360000088009912351547686045328934248805131837923452867905497597192515415155462929309020453137862103978938042975105284863222572350194243665424510412442089633315140084367000056609762476635361634779957457869965616324137215498398783924984634753422988524225482448515599672664722300036779686833518266154971084039421733168175009684329153557685723821576082889359407094482348370559882252999 : ℚ) / 10000000000000000000000000000000000000000000000000000000000000000000000000000000000000000000000000000000000000000000000000000000000000000000000000000000000000000000000000000000000000000000000000000000000000000000000000000000000000000000000000000000000000000000000000000000000000000000000000000000000000000000000000000000000000000000000000000000000000000000000000000000000000000000000000000000000000000000000000000000000000000000000000000000000000000000000000000000000000000000000000000000000000000000000000000000000000000000000000000000000000000000000000000000000000000000000000000000000000000000000000000000000000000000000000000000000000000000000000000000000000000000000000000000000000000000000000000000000000000000000000000000000000000000000000000000000000000000000000000000000000000000000000000000000000000000000000000000000000000000000000000000000000000000000000000000000000000000000000000000000000000000000000000000000000000000000000000000000000000000000000000000000000000000000000000000000000000000000000000000000000000000000000000000000000000000000000000000000000000000000000000000000000000000000000000000000000000000000000000000000000000000000000000000000000000000000000000000000000000000000⟩

/-- The exact parameters of the spec-modelled batch trainer on the third
scenario after 700 epochs. -/
def c3state700 : LinReg :=
  ⟨[0, 1, 2, 3, 4], [-50, 50, 150, 250, 350],
    (-81300768954884800606153771559810570826491132184644301689326174059237860683512445663165414442373252661804614540083595982852800218766236199650463633117187025649923535378278466192416734304989352792827606388700302700795285856299891807802427635453438269342771006415677350078725120489246828088796146538867004710686011841310633103726436507344102614085542102284738602326567212233465506054562309353412955459987180430549377257858232002010946425405438162340132538970139528360231760192019710060830759887003488825110460402033666518582036458023507765890703950366958044148321484294435071140792655015740259275521729486879960955002598716156456022265386999595623908528676002631251775625451884370571837031137870769334300238840109184676585724682794816280267159429074301576159672261404436617004613351479094932089902156607885706142307376334265720103047844916411996823968260397618739351125404180973205013166530032839411039780306311707337224638953640727676178135859486068652593074357524888259014501071925376595013153709382542676660544252691128351891609466505390786143110323820480792609074972247092414171092700579753908899604262417902882084713721325430120135044988684167206604252712629995577668409921503912460384294106731677740234280833363928345835098999629889552071703977797634172518562598838573631171603955842188271328580114520105011657544640628359368589290630719422359453206688108043984195488612577874317209654979601991999 : ℚ) / 2000000000000000000000000000000000000000000000000000000000000000000000000000000000000000000000000000000000000000000000000000000000000000000000000000000000000000000000000000000000000000000000000000000000000000000000000000000000000000000000000000000000000000000000000000000000000000000000000000000000000000000000000000000000000000000000000000000000000000000000000000000000000000000000000000000000000000000000000000000000000000000000000000000000000000000000000000000000000000000000000000000000000000000000000000000000000000000000000000000000000000000000000000000000000000000000000000000000000000000000000000000000000000000000000000000000000000000000000000000000000000000000000000000000000000000000000000000000000000000000000000000000000000000000000000000000000000000000000000000000000000000000000000000000000000000000000000000000000000000000000000000000000000000000000000000000000000000000000000000000000000000000000000000000000000000000000000000000000000000000000000000000000000000000000000000000000000000000000000000000000000000000000000000000000000000000000000000000000000000000000000000000000000000000000000000000000000000000000000000000000000000000000000000000000000000000000000000000000000000000000000000000000000000000000000000000000000000000000000000000000000000000000000000000000000000000000000000000000000000000000000000000000000000000000000000000000000000000000000000000000000000000000000000,
    (96720331962405260709581258489175266335942094635832117727136579665154710508838983722508637099735833747054418277993671709591416352577984568601766647772745829621480404263693422814569438656553792494465481878487399341940191275070628884612002055013591174967274555896859343266671939206294133110210074880903452626873487054088295664047471523254046312088265250962581805354984060582726913677789148652640945672827759961578765107784991941339679707874485657380145110307525266664571203280886807609386754531933250285559943904384409895863479860361791585005457600310137613789476275985574659034862696549279328261650581180010162023719441492766178508779979002800134483843499071431906211468781165803383887120297436167189570664773628564004349830442540548239596329694874104799775504077550930546063767317078385803702657787637664677165443948019866278578999407164331550569062878713882809567580290184060311947671333865967325079138600401662998137096371892884170150133210222659645317891270317091106759973819393089670798413685274546408400374045747998331939563267589471702323370108500044880178123122942717962002809816699346064830468371328273544823567498237124667826458772284998613082021991141757036508266149607123905470988142792322292717837182291153065812015150340849528341910939957305730347284719529558818255556865928455280808448735355141407393190011876904570810681597263861542243600124245674073162053793081045441916030151943440999 : ℚ) / 1000000000000000000000000000000000000000000000000000000000000000000000000000000000000000000000000000000000000000000000000000000000000000000000000000000000000000000000000000000000000000000000000000000000000000000000000000000000000000000000000000000000000000000000000000000000000000000000000000000000000000000000000000000000000000000000000000000000000000000000000000000000000000000000000000000000000000000000000000000000000000000000000000000000000000000000000000000000000000000000000000000000000000000000000000000000000000000000000000000000000000000000000000000000000000000000000000000000000000000000000000000000000000000000000000000000000000000000000000000000000000000000000000000000000000000000000000000000000000000000000000000000000000000000000000000000000000000000000000000000000000000000000000000000000000000000000000000000000000000000000000000000000000000000000000000000000000000000000000000000000000000000000000000000000000000000000000000000000000000000000000000000000000000000000000000000000000000000000000000000000000000000000000000000000000000000000000000000000000000000000000000000000000000000000000000000000000000000000000000000000000000000000000000000000000000000000000000000000000000000000000000000000000000000000000000000000000000000000000000000000000000000000000000000000000000000000000000000000000000000000000000000000000000000000000000000000000000000000000000000000000000000000000000⟩

/-- The exact parameters of the spec-modelled batch trainer on the third
scenario after 800 epochs. -/
def c3state800 : LinReg :=
  ⟨[0, 1, 2, 3, 4], [-50, 50, 150, 250, 350],
    (-8613180197076018588053347821516358147454078547372954084391374077745987881235324214490888301809976615427535602762126605931174797236981981772661091298584594359151750809624525373022835058687369811494889593898567863213133110517573196580820946969268979995521633075322864116937463612267296172164554607508869518523294010170900608941395065724157975773913791909025531029569271702308562953307422636178185828126837811234671871573092758339636470117576011107063805465228590033892639389015641331681097700317280566168224168975779841231025272283266313190666825479690286908921362104271480779484312794377929539988356139467428643872424867452677123238490849121647907125337029519471331172826908344666822979634014968378296663990310510962585815912795875884018696902357286612942471607327244971997141805696607901417918312288265576568520802577759162252929619010014461730500608114529475169318733414527825756123382542054326602124152616930681495171247413299161264807374632842158439325212076029336037568364741635291733901299680268048624452447697274992943768710348892938987188846558282816552685008429334531313523351335689345772205734555224758184164536232449379840412581848498133210202555891822231692335586204719202843545928340554506197038419313879125476703181920692501017646876838824798183254730667022260954136825047623204582895121193176536200710314305640968432234716943093297346670509956816665691668842196948891573223183838690441013296622592547612584013283029244473654703446851989593964869416626549067353048669933038219671994583223349121957025412158331475449963432340994069918990416246563869933106316561871911897624767032522347999 : ℚ) / 200000000000000000000000000000000000000000000000000000000000000000000000000000000000000000000000000000000000000000000000000000000000000000000000000000000000000000000000000000000000000000000000000000000000000000000000000000000000000000000000000000000000000000000000000000000000000000000000000000000000000000000000000000000000000000000000000000000000000000000000000000000000000000000000000000000000000000000000000000000000000000000000000000000000000000000000000000000000000000000000000000000000000000000000000000000000000000000000000000000000000000000000000000000000000000000000000000000000000000000000000000000000000000000000000000000000000000000000000000000000000000000000000000000000000000000000000000000000000000000000000000000000000000000000000000000000000000000000000000000000000000000000000000000000000000000000000000000000000000000000000000000000000000000000000000000000000000000000000000000000000000000000000000000000000000000000000000000000000000000000000000000000000000000000000000000000000000000000000000000000000000000000000000000000000000000000000000000000000000000000000000000000000000000000000000000000000000000000000000000000000000000000000000000000000000000000000000000000000000000000000000000000000000000000000000000000000000000000000000000000000000000000000000000000000000000000000000000000000000000000000000000000000000000000000000000000000000000000000000000000000000000000000000000000000000000000000000000000000000000000000000000000000000000000000000000000000000000000000000000000000000000000000000000000000000000000000000000000000000000000000000000000000000000000000000000000000,
    (9756764940195689385283578048214367982139584996107611661795391635873253535348216137863635905459745130065174584865907377096433606394955536008888309176742455831432339579965405876766896527227697352246595136438719588571102657001321532954332430768246890678861527907514080654870391406186500631646276503980038535563196107157063399899398246785676025686369799187943751257515612989069042912338947823729536076293098318245529100068787753013919070338265034754043302570515439734304338314435678170223412673296426210834350259458366225216017160055944581182601404283078884355194186139848609970922567561910747078757790912493749595851751182244470182497324828751573236946589791713603545936231796243681047839562019952357406040812487404847958919724350479372032146549145835753070743525617769312613458462718594534353857731693873593074291922421308657855770889782286483584779792137861434907261390697615648342862470549540074987624407670798475534118747149095849844996407127320278409260328050053310763099908413771497345166181131040334661026920935934224017738491396284072861080706597506879670242843540316896582288943246363902438866558607681168008584583528573480758767488224590803778760121799420746285394239278413694652391052044005695959545858417523283049280644499436432378401461597506548640563191461210945837657496650231347481638294756725235807239117116215535355141062134288668627658218098365158703107408259000711086758441426447528654589626773120090423203613315554679835166359282926006675609676420314413649943467272628992355869562160374507242378412161018953271685804741127353868809296687938793580967856551629617493839489990132628999 : ℚ) / 100000000000000000000000000000000000000000000000000000000000000000000000000000000000000000000000000000000000000000000000000000000000000000000000000000000000000000000000000000000000000000000000000000000000000000000000000000000000000000000000000000000000000000000000000000000000000000000000000000000000000000000000000000000000000000000000000000000000000000000000000000000000000000000000000000000000000000000000000000000000000000000000000000000000000000000000000000000000000000000000000000000000000000000000000000000000000000000000000000000000000000000000000000000000000000000000000000000000000000000000000000000000000000000000000000000000000000000000000000000000000000000000000000000000000000000000000000000000000000000000000000000000000000000000000000000000000000000000000000000000000000000000000000000000000000000000000000000000000000000000000000000000000000000000000000000000000000000000000000000000000000000000000000000000000000000000000000000000000000000000000000000000000000000000000000000000000000000000000000000000000000000000000000000000000000000000000000000000000000000000000000000000000000000000000000000000000000000000000000000000000000000000000000000000000000000000000000000000000000000000000000000000000000000000000000000000000000000000000000000000000000000000000000000000000000000000000000000000000000000000000000000000000000000000000000000000000000000000000000000000000000000000000000000000000000000000000000000000000000000000000000000000000000000000000000000000000000000000000000000000000000000000000000000000000000000000000000000000000000000000000000000000000000000000000000000000000⟩

/-- The exact parameters of the spec-modelled batch trainer on the third
scenario after 900 epochs. -/
def c3state900 : LinReg :=
  ⟨[0, 1, 2, 3, 4], [-50, 50, 150, 250, 350],
    (-897147152140005976558290637117544832134738292818205778916210834296109355740003359813136338601374284593220587755082422450781612829722723551625825661675093437335787402579889406851758735611873184356324332040647236364972354955031774400499240398979586130274417231632202394334770847123605983882648966597304043508283683985433117222098143623009807498756778529974993188767788016743857418136293725104436494670794312408681905322924419702610977843288703510617821359838386840617963625703570308802434437119768768103836243848003297551429887115334305598706512489325508584218572188696808347710385712794196034049394713134496252364838317326067677661284574335733960923713007923072834575169043527148938275475665824288246966460778477580407466560041179806856477721961068821932801486004220309884042712229531299761137648855034456237686787328214145293634277173795889517619824156866197825442311054595936879698648680438120416467007958055900450734044090516863731326302116180356366072434095296902768245635900676147082615609276100431075371990892081530606545405053272632509200088176412989680233110339507554989567868852312632370254747757185000510156601330641330906025340244817753220431002199055954267674385131414428149806972049004496027288001055648274724956704000060839238465734735001503511491884174676163771207785734198571391760560305869663549543971198648599494460889326429919306290823779649505743428300437629815634720596599494697831452683804404891431523644229322942252883924202393603818777189187585998066198069586581367978019350493651167141321686095385797420779312017627884586260504610024805183937602153660108994661606221632848591910155224274885260689676671957643088260560712313257100315240563653600410038109212883154263079539102091346089559217824583368098040490537616302986612141792781174113817175965997877439487382510408818703999 : ℚ) / 20000000000000000000000000000000000000000000000000000000000000000000000000000000000000000000000000000000000000000000000000000000000000000000000000000000000000000000000000000000000000000000000000000000000000000000000000000000000000000000000000000000000000000000000000000000000000000000000000000000000000000000000000000000000000000000000000000000000000000000000000000000000000000000000000000000000000000000000000000000000000000000000000000000000000000000000000000000000000000000000000000000000000000000000000000000000000000000000000000000000000000000000000000000000000000000000000000000000000000000000000000000000000000000000000000000000000000000000000000000000000000000000000000000000000000000000000000000000000000000000000000000000000000000000000000000000000000000000000000000000000000000000000000000000000000000000000000000000000000000000000000000000000000000000000000000000000000000000000000000000000000000000000000000000000000000000000000000000000000000000000000000000000000000000000000000000000000000000000000000000000000000000000000000000000000000000000000000000000000000000000000000000000000000000000000000000000000000000000000000000000000000000000000000000000000000000000000000000000000000000000000000000000000000000000000000000000000000000000000000000000000000000000000000000000000000000000000000000000000000000000000000000000000000000000000000000000000000000000000000000000000000000000000000000000000000000000000000000000000000000000000000000000000000000000000000000000000000000000000000000000000000000000000000000000000000000000000000000000000000000000000000000000000000000000000000000000000000000000000000000000000000000000000000000000000000000000000000000000000000000000000000000000000000000000000000000000000000000000000000000000000000000000000000000000000000000000000000000000000000000,
    (981960584534831135367002565989996278266320217728065315734441372418288594956626403111551188503465213705302342305683048958952224971328406820873664670323378755925834118090206653011547093566096749105952214365973267390314865885408830223867475663019938834378982898834269070861898961535343138236295648680880894504410796117731052738655511466762242752070397581074992256547394125573256718786403844499258020205641956660244856420013721948357425134205812619021545325052874069681257256246353758018261591548589243710506228667186368509236961811630949176009621787506588377561013236377829356597881025665421286410902756987468722116539200785639185712333407307419735742461554280940927743574279207234790807480417496718952430364830395275976236282735046837545475658182674154053788846957114334643073202740629918509717357115509689695280774781753785641944785938275979609620069091674467671885017588998739489903430834875871145744016099613956468908047976173206515769532039033709183302345366245540446337188509018919418924758130057402851114206322711458639685167081975524860328413609254663946073437385221952661296497433448324673687430453132919864877248229905295525607691737770574356846249511842374879115271983743994743508171381258927169363012716474475042503997748520824219448811232867843660401360114631377294019762256849120971108854647804384193594320059582180810566620565457463344258272835025079064699588012361257316849348083362278738048574909092726592188078032323266201883002247496912430923359482544017492956357220946422881677233159746825867400341357485205877153387151609559139928221585923985522887214479413586673466202721266835005153398036651705154499366563974697708319770536446385536924740485858161442462386485940784994586510516217826150367828360946686756771730902258900278909191127345872111254240188386923495959250127802449816999 : ℚ) / 10000000000000000000000000000000000000000000000000000000000000000000000000000000000000000000000000000000000000000000000000000000000000000000000000000000000000000000000000000000000000000000000000000000000000000000000000000000000000000000000000000000000000000000000000000000000000000000000000000000000000000000000000000000000000000000000000000000000000000000000000000000000000000000000000000000000000000000000000000000000000000000000000000000000000000000000000000000000000000000000000000000000000000000000000000000000000000000000000000000000000000000000000000000000000000000000000000000000000000000000000000000000000000000000000000000000000000000000000000000000000000000000000000000000000000000000000000000000000000000000000000000000000000000000000000000000000000000000000000000000000000000000000000000000000000000000000000000000000000000000000000000000000000000000000000000000000000000000000000000000000000000000000000000000000000000000000000000000000000000000000000000000000000000000000000000000000000000000000000000000000000000000000000000000000000000000000000000000000000000000000000000000000000000000000000000000000000000000000000000000000000000000000000000000000000000000000000000000000000000000000000000000000000000000000000000000000000000000000000000000000000000000000000000000000000000000000000000000000000000000000000000000000000000000000000000000000000000000000000000000000000000000000000000000000000000000000000000000000000000000000000000000000000000000000000000000000000000000000000000000000000000000000000000000000000000000000000000000000000000000000000000000000000000000000000000000000000000000000000000000000000000000000000000000000000000000000000000000000000000000000000000000000000000000000000000000000000000000000000000000000000000000000000000000000000000000000000000000000000000000⟩

/-- The exact parameters of the spec-modelled batch trainer on the third
scenario after 1000 epochs. -/
def c3state1000 : LinReg :=
  ⟨[0, 1, 2, 3, 4], [-50, 50, 150, 250, 350],
    (-92371966213197382842957031761814738049585755959103688758210340261352502314102284059355735646335001922298201286984399793961147333844536606978476921834324466540835305232284995095670780914426895485093470983456852281572941008516251655619929616104697473097527762151933058413049872511614222052565509084879844759479415432135109805741667161491182512398653794423295787743298806012803655946228162205273201146617646513737100385765093493653599875397076060907650229061983186222256632388390168911744527080653453837252810223205102094020538349436791935113246986654061046352033883872199800514746861131616800081508479633367030612420693166003513965345400301733005627659832180343819873319596771045317779349346293545949750287402949875029209517619845322981488525739316835549149992197546800891383735814312200322621488008606232694474540323325782030901956092800555388521639620576361501674007634549461961885163664617317448984272969255881695212673251834119054304233059213032622843522967687444148186640484309214484933255253128041971287768092040825873830543736595398725195511102544272605250287537388266820110039019489726292214445694730662991234549804988791218130992182416204901039996878948165602169057025328682173217672738996419817108514402790199493309990662027691505278342112223174622101169174514756156769525255773677266039778968738843778872677140213452627464631626353905436418350742308439092928929972317974021084589108641815610272602574364780129967285065095179678029589297430194220994806917188270991019623543614678995466203287125205499446220389743528301266945027089503150491144210480186790854552549690421313057118497628433447423633399330014893915912686430834858960838585555852115850507347297340754459681332435146700780323249028014196430015607183188855109142083414151469856505249262260792239199573586798653561707960923640147095685835081662005286534248085122947691311549567449548542066284801798657295388389888425320441712084024204360790043283151158549387092606825285297436798973188553966088642919208040626230399851692084491059999 : ℚ) / 2000000000000000000000000000000000000000000000000000000000000000000000000000000000000000000000000000000000000000000000000000000000000000000000000000000000000000000000000000000000000000000000000000000000000000000000000000000000000000000000000000000000000000000000000000000000000000000000000000000000000000000000000000000000000000000000000000000000000000000000000000000000000000000000000000000000000000000000000000000000000000000000000000000000000000000000000000000000000000000000000000000000000000000000000000000000000000000000000000000000000000000000000000000000000000000000000000000000000000000000000000000000000000000000000000000000000000000000000000000000000000000000000000000000000000000000000000000000000000000000000000000000000000000000000000000000000000000000000000000000000000000000000000000000000000000000000000000000000000000000000000000000000000000000000000000000000000000000000000000000000000000000000000000000000000000000000000000000000000000000000000000000000000000000000000000000000000000000000000000000000000000000000000000000000000000000000000000000000000000000000000000000000000000000000000000000000000000000000000000000000000000000000000000000000000000000000000000000000000000000000000000000000000000000000000000000000000000000000000000000000000000000000000000000000000000000000000000000000000000000000000000000000000000000000000000000000000000000000000000000000000000000000000000000000000000000000000000000000000000000000000000000000000000000000000000000000000000000000000000000000000000000000000000000000000000000000000000000000000000000000000000000000000000000000000000000000000000000000000000000000000000000000000000000000000000000000000000000000000000000000000000000000000000000000000000000000000000000000000000000000000000000000000000000000000000000000000000000000000000000000000000000000000000000000000000000000000000000000000000000000000000000000000000000000000000000000000000000000000000000000000000000000000000000000000000000000000000000000000000000000000000000000000000,
    (98662115113722571590851964764871323244827438306625633973271366080463854387253380825325149217463539747395876642343418288871080265465416023145672281828758878408311217456030347012585306879133725353482897730135155349875947032757679166616979306539630493925504711346162505974119811572976773242654142671440769891479892152083139093716843499222121031699197987961070760055765176231473866132132154326101410800558004889971400920736248523178102618845525182558756154509822376879227888661244640111229083979247034791624383639220918541228643837682450633410432325929334973088540170753327308253758833713695548339844081526872540726244239479581525076886775362881014910786701014020511691984298260063229635224468562598081349553303656758309509756955075672774275600167911429160102909241229996696010338915807645580382919152606045202226082566252330646484631869468715807580455233306702461949505937243871926751895433199831935633981045063500852940073851081381970507351971966834616234581506385350077952560992616568118675211734956691534847380603937993402000032024079572874898594002411216463138862687550170098045490172881817460471642751296357059896174790546369756399782122691520387546770632440325384138337251518087704000560640822582816231939989547825258598366612145769393158482704724565512580033686750549872659200840889485489319820807928203718534024148758882698493504563831561885090011146735305343081091475365875631891561055007263418145445681027096061944305148887512667220769299594360703689716198487792166849343792546414950951756520302287286847011696167238638220032643033342046845951905450004731610186346930831176990969703439547153375156791140444031236072366930455529005351478676019604034755133449578092526238188204246288110666026424339460969743361519760508058486043876319224155810874203814684457843396085544696266408309737626512925018543196880567355446511924045587896658367849689413869610597903078115271025823110140955930997885201876163379553777048546639524267620848420722776977909749418089033522669430683095560650124249316895004999 : ℚ) / 1000000000000000000000000000000000000000000000000000000000000000000000000000000000000000000000000000000000000000000000000000000000000000000000000000000000000000000000000000000000000000000000000000000000000000000000000000000000000000000000000000000000000000000000000000000000000000000000000000000000000000000000000000000000000000000000000000000000000000000000000000000000000000000000000000000000000000000000000000000000000000000000000000000000000000000000000000000000000000000000000000000000000000000000000000000000000000000000000000000000000000000000000000000000000000000000000000000000000000000000000000000000000000000000000000000000000000000000000000000000000000000000000000000000000000000000000000000000000000000000000000000000000000000000000000000000000000000000000000000000000000000000000000000000000000000000000000000000000000000000000000000000000000000000000000000000000000000000000000000000000000000000000000000000000000000000000000000000000000000000000000000000000000000000000000000000000000000000000000000000000000000000000000000000000000000000000000000000000000000000000000000000000000000000000000000000000000000000000000000000000000000000000000000000000000000000000000000000000000000000000000000000000000000000000000000000000000000000000000000000000000000000000000000000000000000000000000000000000000000000000000000000000000000000000000000000000000000000000000000000000000000000000000000000000000000000000000000000000000000000000000000000000000000000000000000000000000000000000000000000000000000000000000000000000000000000000000000000000000000000000000000000000000000000000000000000000000000000000000000000000000000000000000000000000000000000000000000000000000000000000000000000000000000000000000000000000000000000000000000000000000000000000000000000000000000000000000000000000000000000000000000000000000000000000000000000000000000000000000000000000000000000000000000000000000000000000000000000000000000000000000000000000000000000000000000000000000000000000000000000000000000000000000000⟩

end yrgo

end Spec2Proof

namespace Spec2Proof

/-! ### Supporting lemmas about the container operations -/

namespace Vector

variable {T : Type} [Inhabited T]

theorem resize_fail (v : Vector T) (m : Nat) : v.Resize m false = (false, v) := rfl

theorem resize_ok_data (v : Vector T) (m : Nat) :
    (v.Resize m true).2.data_ =
      (v.data_ ++ List.replicate (m - v.data_.length) default).take m := rfl

theorem resize_ok_fst (v : Vector T) (m : Nat) : (v.Resize m true).1 = true := rfl

theorem resize_ok_length (v : Vector T) (m : Nat) :
    (v.Resize m true).2.data_.length = m := by
  rw [resize_ok_data]
  simp only [List.length_take, List.length_append, List.length_replicate]
  omega

theorem resize_ok_take (v : Vector T) (m : Nat) :
    (v.Resize m true).2.data_.take (min v.Size m) = v.data_.take (min v.Size m) := by
  rw [resize_ok_data, List.take_take]
  have h1 : min (min v.Size m) m = min v.Size m := by omega
  rw [h1, List.take_append_of_le_length]
  exact Nat.min_le_left v.Size m

omit [Inhabited T] in
theorem set_append_cons (pre : List T) (x p : T) (ps : List T) :
    (pre ++ p :: ps).set pre.length x = pre ++ x :: ps := by
  induction pre with
  | nil => rfl
  | cons a pre ih => simp only [List.cons_append, List.length_cons, List.set_cons_succ, ih]

omit [Inhabited T] in
theorem assignFrom_append (src : List T) : ∀ (pre post : List T),
    assignFrom (pre ++ post) src pre.length = pre ++ assignFrom post src 0 := by
  induction src with
  | nil => intro pre post; rfl
  | cons x rest ih =>
    intro pre post
    match post with
    | [] =>
      have hcond : ¬ pre.length < (pre ++ ([] : List T)).length := by simp
      simp only [assignFrom, hcond, if_false]
      simp
    | p :: ps =>
      have hcond : pre.length < (pre ++ p :: ps).length := by simp
      have hcond0 : 0 < (p :: ps : List T).length := by simp
      have hstep : ((p :: ps : List T).set 0 x) = [x] ++ ps := by simp
      simp only [assignFrom, hcond, if_true, hcond0, set_append_cons, List.length_cons,
        Nat.zero_lt_succ, hstep]
      have h1 : (pre ++ x :: ps : List T) = (pre ++ [x]) ++ ps := by simp
      have h2 : pre.length + 1 = (pre ++ [x] : List T).length := by simp
      rw [h1, h2, ih ((pre ++ [x])) ps]
      have h3 : (0 : Nat) + 1 = ([x] : List T).length := rfl
      rw [h3, ih ([x]) ps]
      simp

omit [Inhabited T] in
theorem assignFrom_full (src : List T) : ∀ (data : List T),
    data.length = src.length → assignFrom data src 0 = src := by
  induction src with
  | nil =>
    intro data h
    have hd : data = [] := List.length_eq_zero.mp h
    simp [hd, assignFrom]
  | cons x rest ih =>
    intro data h
    match data with
    | d :: ds =>
      have hcond : (0 : Nat) < (d :: ds : List T).length := by simp
      have hstep : ((d :: ds : List T).set 0 x) = [x] ++ ds := by simp
      simp only [assignFrom, hcond, if_true, hstep]
      have h3 : (0 : Nat) + 1 = ([x] : List T).length := rfl
      rw [h3, assignFrom_append rest ([x]) ds]
      have hlen : ds.length = rest.length := by simpa using h
      rw [ih ds hlen]
      rfl

theorem copy_ok (v source : Vector T) :
    v.Copy source true = (true, source) := by
  have hlen : (v.Resize source.Size true).2.data_.length = source.data_.length :=
    resize_ok_length v source.Size
  have hassign : assignFrom (v.Resize source.Size true).2.data_ source.data_ 0 = source.data_ :=
    assignFrom_full source.data_ _ hlen
  cases hr : v.Resize source.Size true with
  | mk b w =>
    have hb : b = true := by rw [← resize_ok_fst v source.Size, hr]
    subst hb
    have hw : assignFrom w.data_ source.data_ 0 = source.data_ := by rw [hr] at hassign; exact hassign
    simp only [Copy, hr, Assign, hw]

theorem pushBack_ok_data (v : Vector T) (x : T) :
    (v.PushBack x true).2.data_ = v.data_ ++ [x] := by
  have hdata : (v.Resize (v.Size + 1) true).2.data_ = v.data_ ++ [default] := by
    rw [resize_ok_data]
    have h1 : v.Size + 1 - v.data_.length = 1 := by simp [Size]
    rw [show v.data_.length = v.Size from rfl] at h1 ⊢
    rw [h1, List.replicate_one]
    exact List.take_of_length_le (by simp [Size])
  have hsize : (v.Resize (v.Size + 1) true).2.Size = v.Size + 1 :=
    resize_ok_length v (v.Size + 1)
  cases hr : v.Resize (v.Size + 1) true with
  | mk b w =>
    have hb : b = true := by rw [← resize_ok_fst v (v.Size + 1), hr]
    subst hb
    have hw : w.data_ = v.data_ ++ [default] := by rw [← hdata, hr]
    have hws : w.Size = v.Size + 1 := by rw [← hsize, hr]
    simp only [PushBack, hr, hws, Nat.add_sub_cancel, hw]
    rw [show v.Size = v.data_.length from rfl, set_append_cons]

theorem pushAll_data (values : List T) : ∀ (v : Vector T),
    (v.pushAll values).data_ = v.data_ ++ values := by
  induction values with
  | nil => intro v; simp [pushAll]
  | cons x rest ih =>
    intro v
    simp only [pushAll, ih, pushBack_ok_data]
    simp

theorem popBack_ok_length (v : Vector T) :
    (v.PopBack true).2.data_.length = v.data_.length - 1 := by
  by_cases h : v.Size ≤ 1
  · simp only [PopBack, h, if_true, Clear, detail.Delete, List.length_nil]
    have hle : v.data_.length ≤ 1 := h
    omega
  · simp only [PopBack, h, if_false, resize_ok_length]
    rfl

theorem popN_of_length (n : Nat) : ∀ (v : Vector T), v.data_.length = n →
    v.popN n = init := by
  induction n with
  | zero =>
    intro v h
    cases v with
    | mk l =>
      simp only [popN, init]
      exact congrArg Vector.mk (List.length_eq_zero.mp h)
  | succ k ih =>
    intro v h
    simp only [popN]
    exact ih _ (by rw [popBack_ok_length, h]; omega)

theorem addValues_ok_data (a b : Vector T) :
    (a.AddValues b true).2.data_ = a.data_ ++ b.data_ := by
  have hdata : (a.Resize (a.Size + b.Size) true).2.data_ =
      a.data_ ++ List.replicate b.Size default := by
    rw [resize_ok_data]
    have h1 : a.Size + b.Size - a.data_.length = b.Size := by simp [Size]
    rw [h1]
    exact List.take_of_length_le (by simp [Size])
  cases hr : a.Resize (a.Size + b.Size) true with
  | mk c w =>
    have hb : c = true := by rw [← resize_ok_fst a (a.Size + b.Size), hr]
    subst hb
    have hw : w.data_ = a.data_ ++ List.replicate b.Size default := by rw [← hdata, hr]
    simp only [AddValues, hr, Assign, hw]
    rw [show a.Size = a.data_.length from rfl, assignFrom_append]
    rw [assignFrom_full b.data_ (List.replicate b.Size default) (by simp [Size])]

theorem addValues_ok_fst (a b : Vector T) : (a.AddValues b true).1 = true := by
  cases hr : a.Resize (a.Size + b.Size) true with
  | mk c w =>
    have hb : c = true := by rw [← resize_ok_fst a (a.Size + b.Size), hr]
    subst hb
    simp only [AddValues, hr]

end Vector

end Spec2Proof

namespace Spec2Proof

/-! ### Claims about the container -/

namespace Vector

variable {T : Type} [Inhabited T]

/-- C2: for every container with elements `v_0..v_{n-1}` and every requested
size `m`, `Resize(m)` either returns true and the container then holds
exactly `m` elements whose values at the indices `0..min(n,m)-1` equal the
prior values (no over-allocation beyond `m`), or, on allocation failure,
returns false and the container's block and size are completely
unchanged. -/
theorem Resize_contract (v : Vector T) (m : Nat) (allocOk : Bool) :
    (allocOk = true →
      (v.Resize m allocOk).1 = true ∧
      (v.Resize m allocOk).2.Size = m ∧
      (v.Resize m allocOk).2.data_.take (min v.Size m) = v.data_.take (min v.Size m)) ∧
    (allocOk = false → v.Resize m allocOk = (false, v)) := by
  constructor
  · intro h
    subst h
    exact ⟨resize_ok_fst v m, resize_ok_length v m, resize_ok_take v m⟩
  · intro h
    subst h
    exact resize_fail v m

/-- Witness for `Resize_contract` at the container `[1, 2]` resized to 1. -/
theorem Resize_contract_witness :
    ((⟨[1, 2]⟩ : Vector ℤ).Resize 1 true).1 = true ∧
    (⟨[1, 2]⟩ : Vector ℤ).Resize 1 false = (false, ⟨[1, 2]⟩) :=
  ⟨((Resize_contract ⟨[1, 2]⟩ 1 true).1 rfl).1,
   (Resize_contract ⟨[1, 2]⟩ 1 false).2 rfl⟩

/-- C4 counterexample: copy-assignment under allocation failure violates
"every operation either succeeds or leaves the container's state
unchanged": assigning `[2]` to the container `[1]` with the allocation
failing leaves the destination equal to neither the source (success) nor
its prior state (unchanged) — it has been cleared. -/
theorem assignOp_failure_counterexample :
    ¬ (((⟨[1]⟩ : Vector ℤ).assignOp ⟨[2]⟩ false = ⟨[2]⟩) ∨
       ((⟨[1]⟩ : Vector ℤ).assignOp ⟨[2]⟩ false = ⟨[1]⟩)) := by
  decide

/-- C4 amended: every operation that reports failure by a boolean return
(`Resize`, `PushBack`, `Copy`, `AddValues`, and `PopBack` at sizes ≥ 2)
leaves the container unchanged when the allocation fails, and a failed
construction leaves the new container empty; but copy-assignment, which
reports nothing, clears the destination first, so on allocation failure
the destination is left empty rather than in its prior state. -/
theorem failed_ops_leave_state_unchanged (v s : Vector T) (x : T) (m : Nat)
    (vals : List T) :
    v.Resize m false = (false, v) ∧
    v.PushBack x false = (false, v) ∧
    v.Copy s false = (false, v) ∧
    v.AddValues s false = (false, v) ∧
    ofSize T m false = (init : Vector T) ∧
    ofValues vals false = (init : Vector T) ∧
    copyCtor s false = (init : Vector T) ∧
    v.assignOp s false = (init : Vector T) ∧
    (2 ≤ v.Size → v.PopBack false = (false, v)) ∧
    (v.Size ≤ 1 → v.PopBack false = (true, (init : Vector T))) := by
  refine ⟨rfl, rfl, rfl, rfl, rfl, rfl, rfl, rfl, ?_, ?_⟩
  · intro h
    have hn : ¬ v.Size ≤ 1 := by omega
    simp only [PopBack, if_neg hn]
    exact resize_fail v (v.Size - 1)
  · intro h
    simp only [PopBack, if_pos h]
    rfl

/-- Witness for `failed_ops_leave_state_unchanged` at the containers
`[5, 6]` and `[7]`. -/
theorem failed_ops_witness :
    (⟨[5, 6]⟩ : Vector ℤ).PopBack false = (false, ⟨[5, 6]⟩) ∧
    (⟨[7]⟩ : Vector ℤ).PopBack false = (true, (init : Vector ℤ)) :=
  ⟨(failed_ops_leave_state_unchanged ⟨[5, 6]⟩ ⟨[8]⟩ 9 3 [4]).2.2.2.2.2.2.2.2.1 (by decide),
   (failed_ops_leave_state_unchanged ⟨[7]⟩ ⟨[8]⟩ 9 3 [4]).2.2.2.2.2.2.2.2.2 (by decide)⟩

/-- C5 counterexample: `PopBack()` does not always succeed — on the
container `[1, 2]` with the internal `Resize(size - 1)` reallocation
failing, `PopBack` returns false. -/
theorem PopBack_failure_counterexample :
    ¬ (((⟨[1, 2]⟩ : Vector ℤ).PopBack false).1 = true) := by
  decide

/-- C5 amended: when the resulting size would be zero (`size_ <= 1`),
`PopBack` fully releases the block via `Clear` and returns true rather
than reallocating to a zero-length block; otherwise it shrinks by one
via `Resize(size - 1)` and so returns that reallocation's success,
leaving the container unchanged when the reallocation fails. -/
theorem PopBack_contract (v : Vector T) (allocOk : Bool) :
    (v.Size ≤ 1 → v.PopBack allocOk = (true, v.Clear)) ∧
    (2 ≤ v.Size → v.PopBack allocOk = v.Resize (v.Size - 1) allocOk) ∧
    (2 ≤ v.Size → allocOk = false → v.PopBack allocOk = (false, v)) := by
  refine ⟨?_, ?_, ?_⟩
  · intro h
    simp only [PopBack, if_pos h]
  · intro h
    have hn : ¬ v.Size ≤ 1 := by omega
    simp only [PopBack, if_neg hn]
  · intro h ha
    subst ha
    have hn : ¬ v.Size ≤ 1 := by omega
    simp only [PopBack, if_neg hn]
    exact resize_fail v (v.Size - 1)

/-- Witness for `PopBack_contract` at the containers `[1]` and `[1, 2]`. -/
theorem PopBack_contract_witness :
    (⟨[1]⟩ : Vector ℤ).PopBack true = (true, (⟨[1]⟩ : Vector ℤ).Clear) ∧
    (⟨[1, 2]⟩ : Vector ℤ).PopBack false = (false, ⟨[1, 2]⟩) :=
  ⟨(PopBack_contract ⟨[1]⟩ true).1 (by decide),
   (PopBack_contract ⟨[1, 2]⟩ false).2.2 (by decide) rfl⟩

/-- C6: after `A += B` (with the single reallocation succeeding) the size
of A equals its prior size plus the size of B, the first prior-size
elements of A are unchanged, and the remaining elements equal B's values
in order; `AddValues` reports success. -/
theorem append_concatenation_law (a b : Vector T) :
    (a.appendOp b true).Size = a.Size + b.Size ∧
    (a.appendOp b true).data_.take a.Size = a.data_ ∧
    (a.appendOp b true).data_.drop a.Size = b.data_ ∧
    (a.AddValues b true).1 = true := by
  have hd : (a.appendOp b true).data_ = a.data_ ++ b.data_ := addValues_ok_data a b
  refine ⟨?_, ?_, ?_, addValues_ok_fst a b⟩
  · show (a.appendOp b true).data_.length = a.data_.length + b.data_.length
    rw [hd, List.length_append]
  · rw [hd, show a.Size = a.data_.length from rfl]
    exact List.take_left a.data_ b.data_
  · rw [hd, show a.Size = a.data_.length from rfl]
    exact List.drop_left a.data_ b.data_

/-- C7: any sequence of `PushBack` calls followed by the same number of
`PopBack` calls, starting from the empty container, returns the container
to the empty state. -/
theorem push_pop_roundtrip (values : List T) :
    ((init : Vector T).pushAll values).popN values.length = init :=
  popN_of_length values.length _ (by rw [pushAll_data]; simp [init])

omit [Inhabited T] in
/-- C8: after move-constructing B from A, B holds exactly A's original
values at the same indices and A reports size 0. -/
theorem moveCtor_transfer (a : Vector T) :
    (moveCtor a).1.data_ = a.data_ ∧ (moveCtor a).2.Size = 0 :=
  ⟨rfl, rfl⟩

/-- C9: self-assignment `v = v` leaves `v` empty with size 0 and discards
all previous elements, because `operator=` clears the destination before
copying from the (aliased, hence already-cleared) source. -/
theorem selfAssign_empties (v : Vector T) (allocOk : Bool) :
    v.selfAssignOp allocOk = init ∧ (v.selfAssignOp allocOk).Size = 0 := by
  cases allocOk
  · exact ⟨rfl, rfl⟩
  · exact ⟨rfl, rfl⟩

/-- C10: `PopBack()` on an empty container returns true and leaves the
container empty; more generally any size at most 1 takes the `Clear`
branch (so the size never underflows) and ends at size 0. -/
theorem PopBack_on_empty (v : Vector T) (allocOk : Bool) :
    (init : Vector T).PopBack allocOk = (true, init) ∧
    (v.Size ≤ 1 → v.PopBack allocOk = (true, v.Clear) ∧ (v.PopBack allocOk).2.Size = 0) := by
  refine ⟨rfl, ?_⟩
  intro h
  have he : v.PopBack allocOk = (true, v.Clear) := by
    simp only [PopBack, if_pos h]
  exact ⟨he, by rw [he]; rfl⟩

/-- Witness for `PopBack_on_empty` at the container `[9]`. -/
theorem PopBack_on_empty_witness :
    (⟨[9]⟩ : Vector ℤ).PopBack true = (true, (⟨[9]⟩ : Vector ℤ).Clear) ∧
    (((⟨[9]⟩ : Vector ℤ).PopBack true).2).Size = 0 :=
  (PopBack_on_empty ⟨[9]⟩ true).2 (by decide)

end Vector

end Spec2Proof

namespace Spec2Proof

/-! ### Claims about the regression model -/

namespace yrgo

theorem zipWith_sum_eq_range_sum (f : ℚ → ℚ → ℚ) :
    ∀ (xs ys : List ℚ), ys.length = xs.length →
    (List.zipWith f xs ys).sum =
      ∑ i ∈ Finset.range xs.length, f (xs.getD i 0) (ys.getD i 0) := by
  intro xs
  induction xs with
  | nil =>
    intro ys h
    simp
  | cons x xs ih =>
    intro ys h
    cases ys with
    | nil => simp at h
    | cons y ys =>
      have hlen : ys.length = xs.length := by simpa using h
      simp only [List.zipWith_cons_cons, List.sum_cons, List.length_cons]
      rw [Finset.sum_range_succ' (fun i => f ((x :: xs).getD i 0) ((y :: ys).getD i 0)) xs.length]
      simp only [List.getD_cons_succ, List.getD_cons_zero]
      rw [ih ys hlen]
      ring

theorem Train_eq_iterate (m : LinReg) (e : Nat) : m.Train e = LinReg.TrainStep^[e] m := by
  induction e generalizing m with
  | zero => rfl
  | succ k ih =>
    show m.TrainStep.Train k = LinReg.TrainStep^[k + 1] m
    rw [ih, Function.iterate_succ_apply]

/-- C1: for every loaded training set of `n` pairs with `n > 0` and every
epoch count `e`, `Train(e)` performs exactly `e` iterations of batch
gradient descent: each iteration subtracts `learning_rate` times the mean
of `bias + weight * x_i - y_i` from the bias and `learning_rate` times the
mean of `(bias + weight * x_i - y_i) * x_i` from the weight, with the
learning rate fixed at 1/100. -/
theorem Train_batch_gradient_descent (m : LinReg) (e : Nat)
    (_hn : 0 < m.inputs.length) (hlen : m.outputs.length = m.inputs.length) :
    m.Train e = LinReg.TrainStep^[e] m ∧
    m.TrainStep.bias = m.bias - learning_rate *
      ((∑ i ∈ Finset.range m.inputs.length,
        (m.bias + m.weight * m.inputs.getD i 0 - m.outputs.getD i 0)) /
        (m.inputs.length : ℚ)) ∧
    m.TrainStep.weight = m.weight - learning_rate *
      ((∑ i ∈ Finset.range m.inputs.length,
        ((m.bias + m.weight * m.inputs.getD i 0 - m.outputs.getD i 0) * m.inputs.getD i 0)) /
        (m.inputs.length : ℚ)) ∧
    learning_rate = 1 / 100 := by
  have hb : m.TrainStep.bias = m.bias - learning_rate *
      ((List.zipWith (fun x y => m.Predict x - y) m.inputs m.outputs).sum /
        (m.inputs.length : ℚ)) := rfl
  have hw : m.TrainStep.weight = m.weight - learning_rate *
      ((List.zipWith (fun x y => (m.Predict x - y) * x) m.inputs m.outputs).sum /
        (m.inputs.length : ℚ)) := rfl
  refine ⟨Train_eq_iterate m e, ?_, ?_, rfl⟩
  · rw [hb, zipWith_sum_eq_range_sum _ _ _ hlen]
    simp only [LinReg.Predict]
  · rw [hw, zipWith_sum_eq_range_sum _ _ _ hlen]
    simp only [LinReg.Predict]

/-- Witness for `Train_batch_gradient_descent` at the one-pair training
set `(1, 2)` with two epochs. -/
theorem Train_batch_gd_witness :
    (LinReg.ofData [1] [2]).Train 2 = LinReg.TrainStep^[2] (LinReg.ofData [1] [2]) ∧
    (LinReg.ofData [1] [2]).TrainStep.bias = (LinReg.ofData [1] [2]).bias - learning_rate *
      ((∑ i ∈ Finset.range (LinReg.ofData [1] [2]).inputs.length,
        ((LinReg.ofData [1] [2]).bias +
          (LinReg.ofData [1] [2]).weight * (LinReg.ofData [1] [2]).inputs.getD i 0 -
          (LinReg.ofData [1] [2]).outputs.getD i 0)) /
        ((LinReg.ofData [1] [2]).inputs.length : ℚ)) ∧
    (LinReg.ofData [1] [2]).TrainStep.weight = (LinReg.ofData [1] [2]).weight - learning_rate *
      ((∑ i ∈ Finset.range (LinReg.ofData [1] [2]).inputs.length,
        (((LinReg.ofData [1] [2]).bias +
          (LinReg.ofData [1] [2]).weight * (LinReg.ofData [1] [2]).inputs.getD i 0 -
          (LinReg.ofData [1] [2]).outputs.getD i 0) *
          (LinReg.ofData [1] [2]).inputs.getD i 0)) /
        ((LinReg.ofData [1] [2]).inputs.length : ℚ)) ∧
    learning_rate = 1 / 100 :=
  Train_batch_gradient_descent (LinReg.ofData [1] [2]) 2 (by decide) (by decide)

theorem Train_add (m : LinReg) (a b : Nat) : m.Train (a + b) = (m.Train a).Train b := by
  induction a generalizing m with
  | zero =>
    rw [Nat.zero_add]
    rfl
  | succ k ih =>
    have h1 : k + 1 + b = (k + b) + 1 := by omega
    rw [h1]
    show m.TrainStep.Train (k + b) = (m.TrainStep.Train k).Train b
    exact ih m.TrainStep

end yrgo

end Spec2Proof

namespace Spec2Proof

namespace yrgo

set_option maxRecDepth 200000 in
attribute [local semireducible] Rat.add Rat.mul Rat.sub Rat.inv Rat.ofScientific in
/-- One hundred further epochs of the spec-modelled batch trainer on the
third scenario: epochs 0 to 100, computed exactly. -/
theorem c3_chunk_100 : c3model.Train 100 = c3state100 := by decide

set_option maxRecDepth 200000 in
attribute [local semireducible] Rat.add Rat.mul Rat.sub Rat.inv Rat.ofScientific in
/-- One hundred further epochs of the spec-modelled batch trainer on the
third scenario: epochs 100 to 200, computed exactly. -/
theorem c3_chunk_200 : c3state100.Train 100 = c3state200 := by decide

set_option maxRecDepth 200000 in
attribute [local semireducible] Rat.add Rat.mul Rat.sub Rat.inv Rat.ofScientific in
/-- One hundred further epochs of the spec-modelled batch trainer on the
third scenario: epochs 200 to 300, computed exactly. -/
theorem c3_chunk_300 : c3state200.Train 100 = c3state300 := by decide

set_option maxRecDepth 200000 in
attribute [local semireducible] Rat.add Rat.mul Rat.sub Rat.inv Rat.ofScientific in
/-- One hundred further epochs of the spec-modelled batch trainer on the
third scenario: epochs 300 to 400, computed exactly. -/
theorem c3_chunk_400 : c3state300.Train 100 = c3state400 := by decide

set_option maxRecDepth 200000 in
attribute [local semireducible] Rat.add Rat.mul Rat.sub Rat.inv Rat.ofScientific in
/-- One hundred further epochs of the spec-modelled batch trainer on the
third scenario: epochs 400 to 500, computed exactly. -/
theorem c3_chunk_500 : c3state400.Train 100 = c3state500 := by decide

set_option maxRecDepth 200000 in
attribute [local semireducible] Rat.add Rat.mul Rat.sub Rat.inv Rat.ofScientific in
/-- One hundred further epochs of the spec-modelled batch trainer on the
third scenario: epochs 500 to 600, computed exactly. -/
theorem c3_chunk_600 : c3state500.Train 100 = c3state600 := by decide

set_option maxRecDepth 200000 in
attribute [local semireducible] Rat.add Rat.mul Rat.sub Rat.inv Rat.ofScientific in
/-- One hundred further epochs of the spec-modelled batch trainer on the
third scenario: epochs 600 to 700, computed exactly. -/
theorem c3_chunk_700 : c3state600.Train 100 = c3state700 := by decide

set_option maxRecDepth 200000 in
attribute [local semireducible] Rat.add Rat.mul Rat.sub Rat.inv Rat.ofScientific in
/-- One hundred further epochs of the spec-modelled batch trainer on the
third scenario: epochs 700 to 800, computed exactly. -/
theorem c3_chunk_800 : c3state700.Train 100 = c3state800 := by decide

set_option maxRecDepth 200000 in
attribute [local semireducible] Rat.add Rat.mul Rat.sub Rat.inv Rat.ofScientific in
/-- One hundred further epochs of the spec-modelled batch trainer on the
third scenario: epochs 800 to 900, computed exactly. -/
theorem c3_chunk_900 : c3state800.Train 100 = c3state900 := by decide

set_option maxRecDepth 200000 in
attribute [local semireducible] Rat.add Rat.mul Rat.sub Rat.inv Rat.ofScientific in
/-- One hundred further epochs of the spec-modelled batch trainer on the
third scenario: epochs 900 to 1000, computed exactly. -/
theorem c3_chunk_1000 : c3state900.Train 100 = c3state1000 := by decide

theorem c3_train_1000 : c3model.Train 1000 = c3state1000 := by
  have h100 : c3model.Train 100 = c3state100 := c3_chunk_100
  have h200 : c3model.Train 200 = c3state200 := by
    rw [show (200 : Nat) = 100 + 100 from rfl, Train_add, h100, c3_chunk_200]
  have h300 : c3model.Train 300 = c3state300 := by
    rw [show (300 : Nat) = 200 + 100 from rfl, Train_add, h200, c3_chunk_300]
  have h400 : c3model.Train 400 = c3state400 := by
    rw [show (400 : Nat) = 300 + 100 from rfl, Train_add, h300, c3_chunk_400]
  have h500 : c3model.Train 500 = c3state500 := by
    rw [show (500 : Nat) = 400 + 100 from rfl, Train_add, h400, c3_chunk_500]
  have h600 : c3model.Train 600 = c3state600 := by
    rw [show (600 : Nat) = 500 + 100 from rfl, Train_add, h500, c3_chunk_600]
  have h700 : c3model.Train 700 = c3state700 := by
    rw [show (700 : Nat) = 600 + 100 from rfl, Train_add, h600, c3_chunk_700]
  have h800 : c3model.Train 800 = c3state800 := by
    rw [show (800 : Nat) = 700 + 100 from rfl, Train_add, h700, c3_chunk_800]
  have h900 : c3model.Train 900 = c3state900 := by
    rw [show (900 : Nat) = 800 + 100 from rfl, Train_add, h800, c3_chunk_900]
  have h1000 : c3model.Train 1000 = c3state1000 := by
    rw [show (1000 : Nat) = 900 + 100 from rfl, Train_add, h900, c3_chunk_1000]
  exact h1000

set_option maxRecDepth 200000 in
attribute [local semireducible] Rat.add Rat.mul Rat.sub Rat.inv Rat.ofScientific in
/-- C3 (evaluation at the failing input): training the spec-modelled batch
trainer on the third scenario (inputs `[0,1,2,3,4]`, outputs
`[-50,50,150,250,350]`, target line `100x - 50`) for 1000 epochs at
learning rate 1 % leaves `Predict(0)` more than 1/1000 away from the
target value `100 * 0 - 50` (the exact excess is about 3.814), violating
the 0.001 tolerance that `lin_reg_test.cpp` asserts. -/
theorem c3_tolerance_violated :
    (1 : ℚ) / 1000 < (c3model.Train 1000).Predict 0 - (100 * 0 - 50) := by
  rw [c3_train_1000]
  decide

end yrgo

end Spec2Proof
